import Mathlib

/-!
Verification of the Thyser canvas state & persistence engine.

This file gives a shallow embedding of the canvas core: the node/edge graph
and its keyboard-driven mutations from `FlowCanvas` (delete-selected,
duplicate-selected, node creation, marquee selection), the debounced
auto-save pipeline (`saveCanvasData`, `manualSave`, the `isLoaded` guard) and
the store client `canvasOperations` (`loadCanvas`, `saveCanvas`).  Numbers
that are JS floats are modelled as rationals; JS strings as `String`;
fallible async calls as `Except` results supplied by the environment.
-/

namespace Thyser

/-- A 2D point, in screen or graph coordinates. -/
structure Point where
  x : ℚ
  y : ℚ
deriving DecidableEq, Repr

/-- The reactflow viewport: translation `(x, y)` and scale `zoom`. -/
structure Viewport where
  x : ℚ
  y : ℚ
  zoom : ℚ
deriving DecidableEq, Repr

/-- The fields of a node's `data` payload that the embedded code reads:
`duplicateSelectedNodes` rewrites `title` and reads `isActive`; everything
else is opaque pass-through for the core. -/
structure NodeData where
  title : Option String
  isActive : Bool
deriving DecidableEq, Repr

/-- A reactflow node as used by `FlowCanvas`: id, optional type tag,
graph-space position, payload and selection flag (`selected` is optional in
reactflow and read by truthiness, so it is modelled as a `Bool`). -/
structure GraphNode where
  id : String
  type : Option String
  position : Point
  data : NodeData
  selected : Bool
deriving DecidableEq, Repr

/-- A reactflow edge: id plus source/target node ids (style fields are
irrelevant to the verified properties). -/
structure GraphEdge where
  id : String
  source : String
  target : String
deriving DecidableEq, Repr

/-- The Delete/Backspace branch of `handleKeyDown` in `FlowCanvas`:
collect the ids of the selected nodes and, when nonempty, drop every node
whose id is among them and every edge whose source or target is among them. -/
def deleteSelectedNodes (nodes : List GraphNode) (edges : List GraphEdge) :
    List GraphNode × List GraphEdge :=
  let selectedNodeIds := (nodes.filter fun n => n.selected).map fun n => n.id
  if 0 < selectedNodeIds.length then
    (nodes.filter fun n => !(selectedNodeIds.contains n.id),
      edges.filter fun e =>
        !(selectedNodeIds.contains e.source) && !(selectedNodeIds.contains e.target))
  else (nodes, edges)

/-- Decimal representation of a natural number, as produced by JS string
interpolation of a nonnegative integer (`` `${n}` ``). -/
def natDecimal (n : Nat) : String :=
  if n = 0 then "0" else ((Nat.digits 10 n).reverse.map Nat.digitChar).asString

/-- Node-id formation used throughout `FlowCanvas`:
`` `${prefixPart}-${counterValue}` ``. -/
def mkNodeId (base : String) (k : Nat) : String :=
  base ++ "-" ++ natDecimal k

/-- The `type` tag chosen by the `switch` in `handleCreateNode`. -/
def nodeTypeTag (nodeType : String) : String :=
  if nodeType = "text" then "textNode"
  else if nodeType = "image" then "imageNode"
  else if nodeType = "video" then "videoNode"
  else if nodeType = "audio" then "audioNode"
  else if nodeType = "document" then "documentNode"
  else if nodeType = "url" then "urlNode"
  else if nodeType = "aiModel" then "aiModelNode"
  else "default"

/-- The `title` present in the initial `data` payload built by
`handleCreateNode` (only the text node carries one). -/
def initialNodeTitle (nodeType : String) : Option String :=
  if nodeType = "text" then some "Text Input" else none

/-- `handleCreateNode` of `FlowCanvas`: assign `` `${nodeType}-${nodeIdCounter}` ``
as the id, bump the counter, and append the new node (created nodes carry no
`selected` flag, i.e. it reads as false). `pos` stands for the already
converted graph-space position. -/
def handleCreateNode (nodes : List GraphNode) (counter : Nat) (nodeType : String)
    (pos : Point) : List GraphNode × Nat :=
  (nodes ++ [{ id := mkNodeId nodeType counter, type := some (nodeTypeTag nodeType),
               position := pos,
               data := { title := initialNodeTitle nodeType, isActive := false },
               selected := false }],
    counter + 1)

/-- The canvas graph state: nodes, edges and the per-canvas node-id counter. -/
structure GraphState where
  nodes : List GraphNode
  edges : List GraphEdge
  nodeIdCounter : Nat
deriving DecidableEq, Repr

/-- A user command affecting the graph: adding a node (via `handleCreateNode`)
or deleting the selected nodes (via the Delete key branch). -/
inductive GraphOp where
  | addNode (nodeType : String) (pos : Point)
  | deleteSelected
deriving DecidableEq, Repr

/-- One step of the command layer on the graph state. -/
def applyGraphOp (s : GraphState) : GraphOp → GraphState
  | .addNode nodeType pos =>
      let r := handleCreateNode s.nodes s.nodeIdCounter nodeType pos
      { s with nodes := r.1, nodeIdCounter := r.2 }
  | .deleteSelected =>
      let r := deleteSelectedNodes s.nodes s.edges
      { s with nodes := r.1, edges := r.2 }

/-- Run a sequence of graph commands. -/
def runGraphOps (s : GraphState) (ops : List GraphOp) : GraphState :=
  ops.foldl applyGraphOp s

/-- Internal consistency of a graph: every edge's source and target id belong
to some node currently in the node set. -/
def noDanglingEdges (s : GraphState) : Prop :=
  ∀ e ∈ s.edges, (∃ n ∈ s.nodes, n.id = e.source) ∧ ∃ n ∈ s.nodes, n.id = e.target

instance (s : GraphState) : Decidable (noDanglingEdges s) := by
  unfold noDanglingEdges; infer_instance

/-- A `CanvasSnapshot`: the `dataToSave` object `{ nodes, edges, viewport }`
serialized by `JSON.stringify` inside the auto-save pipeline.  The
serialization is deterministic on this data, so comparing serialized strings
is comparing snapshots; the fingerprint is modelled as the snapshot value. -/
structure Snapshot where
  nodes : List GraphNode
  edges : List GraphEdge
  viewport : Viewport
deriving DecidableEq, Repr

/-- The record handed to `canvasOperations.saveCanvas` and written to the
store: snapshot fields, owner, name (defaulted when falsy) and the thumbnail
field, included only when the thumbnail url is truthy. -/
structure SavedRecord where
  user_id : String
  canvas_name : String
  nodes : List GraphNode
  edges : List GraphEdge
  viewport : Viewport
  thumbnail_url : Option String
deriving DecidableEq, Repr

/-- The component state of `FlowCanvasInner` that the save paths read and
write: the current snapshot pieces, canvas identity, the fingerprint of the
last accepted save (`lastSaveDataRef`, `none` for its initial `''`), and the
user-facing save status. -/
structure SessionState where
  nodes : List GraphNode
  edges : List GraphEdge
  viewport : Viewport
  canvasName : String
  currentCanvasId : Option String
  lastSaveData : Option Snapshot
  saveError : Option String
  lastSavedTime : String
deriving DecidableEq, Repr

/-- The snapshot a save attempt would serialize from the session state. -/
def snapshotOf (st : SessionState) : Snapshot :=
  { nodes := st.nodes, edges := st.edges, viewport := st.viewport }

/-- Results of the two fallible external calls a save attempt can make:
`generateThumbnail` (yields a url or throws) and `saveCanvas` (yields the
saved record's id or throws).  `cleanupOldVersions` swallows its own
errors internally and so never throws into the save path. -/
structure SaveEnv where
  thumbnailResult : Except Unit String
  upsertResult : Except Unit String
deriving Repr

/-- What one save attempt did: which external calls were made, what record
was written, and the session fields it left behind. -/
structure SaveOutcome where
  upsertCalled : Bool
  thumbnailCalled : Bool
  cleanupCalled : Bool
  written : Option SavedRecord
  lastSaveData : Option Snapshot
  saveError : Option String
  lastSavedTime : String
  currentCanvasId : Option String
deriving DecidableEq, Repr

/-- `canvasOperations.saveCanvas`'s `dataToSave`: owner is the fixed default
user, the name falls back to `'My Canvas'` when falsy, and
`...(canvasData.thumbnailUrl && { thumbnail_url })` includes the thumbnail
field only for a truthy (nonempty) url. -/
def savedRecordFor (st : SessionState) (thumbnailUrl : Option String) : SavedRecord :=
  { user_id := "default-user",
    canvas_name := if st.canvasName = "" then "My Canvas" else st.canvasName,
    nodes := st.nodes, edges := st.edges, viewport := st.viewport,
    thumbnail_url :=
      match thumbnailUrl with
      | some u => if u = "" then none else some u
      | none => none }

/-- The `thumbnailUrl` local of a save attempt: `generateThumbnail` is called
only when there are nodes, and its failure is caught, leaving the local
`undefined`. -/
def thumbnailUrlOf (st : SessionState) (env : SaveEnv) : Option String :=
  if st.nodes.isEmpty then none
  else
    match env.thumbnailResult with
    | .ok u => some u
    | .error _ => none

/-- The debounced save body `saveCanvasData` of `FlowCanvas`: serialize the
snapshot; if it equals `lastSaveDataRef.current`, return without doing
anything; otherwise generate a thumbnail (failure swallowed), upsert via
`saveCanvas`, run cleanup, record the fingerprint and report success — or, if
the upsert throws, set the error status and leave the fingerprint alone. -/
def saveCanvasData (st : SessionState) (env : SaveEnv) : SaveOutcome :=
  let dataToSave := snapshotOf st
  if st.lastSaveData = some dataToSave then
    { upsertCalled := false, thumbnailCalled := false, cleanupCalled := false,
      written := none, lastSaveData := st.lastSaveData, saveError := st.saveError,
      lastSavedTime := st.lastSavedTime, currentCanvasId := st.currentCanvasId }
  else
    match env.upsertResult with
    | .ok savedId =>
        { upsertCalled := true, thumbnailCalled := !st.nodes.isEmpty,
          cleanupCalled := true,
          written := some (savedRecordFor st (thumbnailUrlOf st env)),
          lastSaveData := some dataToSave, saveError := none,
          lastSavedTime := "just now",
          currentCanvasId :=
            match st.currentCanvasId with
            | some cid => some cid
            | none => some savedId }
    | .error _ =>
        { upsertCalled := true, thumbnailCalled := !st.nodes.isEmpty,
          cleanupCalled := false, written := none, lastSaveData := st.lastSaveData,
          saveError := some "Auto-save failed", lastSavedTime := "error",
          currentCanvasId := st.currentCanvasId }

/-- The `manualSave` function of `FlowCanvas` (Ctrl/Cmd-S): thumbnail, upsert
and cleanup exactly as in the debounced body, but with no fingerprint
comparison beforehand and no `lastSaveDataRef` update afterwards. -/
def manualSave (st : SessionState) (env : SaveEnv) : SaveOutcome :=
  match env.upsertResult with
  | .ok savedId =>
      { upsertCalled := true, thumbnailCalled := !st.nodes.isEmpty,
        cleanupCalled := true,
        written := some (savedRecordFor st (thumbnailUrlOf st env)),
        lastSaveData := st.lastSaveData, saveError := none,
        lastSavedTime := "just now",
        currentCanvasId :=
          match st.currentCanvasId with
          | some cid => some cid
          | none => some savedId }
  | .error _ =>
      { upsertCalled := true, thumbnailCalled := !st.nodes.isEmpty,
        cleanupCalled := false, written := none, lastSaveData := st.lastSaveData,
        saveError := some "Save failed", lastSavedTime := "error",
        currentCanvasId := st.currentCanvasId }

/-- Events on the canvas session timeline that matter to save scheduling:
a graph/viewport mutation (a run of the auto-save effect), the completion of
the initial load (`setIsLoaded(true)` in the load effect's `finally`), and
the firing of the debounce timer. -/
inductive SessionEvent where
  | mutate
  | loadComplete
  | timerFire
deriving DecidableEq, Repr

/-- The scheduling state of the auto-save effect: whether the initial load
has completed, whether a debounce timer is pending, and how many debounced
save bodies have executed. -/
structure AutoSaveState where
  isLoaded : Bool
  pendingTimer : Bool
  executedSaves : Nat
deriving DecidableEq, Repr

/-- On mount: not loaded, no timer, no save has run. -/
def initialAutoSaveState : AutoSaveState :=
  { isLoaded := false, pendingTimer := false, executedSaves := 0 }

/-- One step of the save-scheduling machine.  A mutation re-runs the
auto-save effect, which returns immediately when `!isLoaded` and otherwise
re-arms the single debounce timer; load completion flips `isLoaded` (which
itself re-runs the effect and arms the timer); a timer can only fire — and a
save body only execute — if one is pending. -/
def autoSaveStep (s : AutoSaveState) : SessionEvent → AutoSaveState
  | .mutate => if s.isLoaded then { s with pendingTimer := true } else s
  | .loadComplete => { isLoaded := true, pendingTimer := true,
                       executedSaves := s.executedSaves }
  | .timerFire =>
      if s.pendingTimer then
        { s with pendingTimer := false, executedSaves := s.executedSaves + 1 }
      else s

/-- Run the session machine from mount. -/
def runSession (evs : List SessionEvent) : AutoSaveState :=
  evs.foldl autoSaveStep initialAutoSaveState

/-- JS `String.prototype.replace` with a plain-string pattern: replace the
first occurrence of `pat` (scanning left to right) by `repl`. -/
def replaceFirstAux (pat repl : List Char) : List Char → List Char
  | [] => []
  | c :: rest =>
    if (c :: rest).take pat.length = pat then repl ++ (c :: rest).drop pat.length
    else c :: replaceFirstAux pat repl rest

/-- The clone-id base of `duplicateSelectedNodes`:
`node.type?.replace('Node', '') || 'node'`. -/
def typeBaseName : Option String → String
  | some t =>
      let r := (replaceFirstAux "Node".toList [] t.toList).asString
      if r = "" then "node" else r
  | none => "node"

/-- The `title` rewrite of `duplicateSelectedNodes`:
`node.data.title ? node.data.title + ' Copy' : 'Copy'` (JS truthiness, so an
empty title also falls back to `'Copy'`). -/
def duplicateTitle : Option String → String
  | some t => if t = "" then "Copy" else t ++ " Copy"
  | none => "Copy"

/-- `duplicateSelectedNodes` of `FlowCanvas` (Ctrl/Cmd-D): for each selected
node build a clone with id `` `${base}-${nodeIdCounter + nodes.length}` ``,
position offset by `(+50, +50)`, `selected: false` and the rewritten title;
deselect every existing node, append the clones, and advance the counter by
the number of clones. -/
def duplicateSelectedNodes (nodes : List GraphNode) (nodeIdCounter : Nat) :
    List GraphNode × Nat :=
  let selectedNodesList := nodes.filter fun n => n.selected
  if selectedNodesList.length = 0 then (nodes, nodeIdCounter)
  else
    let newNodes := selectedNodesList.map fun node =>
      { node with
        id := mkNodeId (typeBaseName node.type) (nodeIdCounter + nodes.length),
        position := { x := node.position.x + 50, y := node.position.y + 50 },
        selected := false,
        data := { title := some (duplicateTitle node.data.title),
                  isActive := node.data.isActive } }
    ((nodes.map fun node => { node with selected := false }) ++ newNodes,
      nodeIdCounter + newNodes.length)

/-- Numeric value of a digit character, as `parseInt` does per character. -/
def digitCharValue (c : Char) : Nat := c.toNat - 48

/-- `parseInt(ds, 10)` on a string of decimal digits, given big-endian. -/
def digitCharsValue (ds : List Char) : Nat :=
  ds.foldl (fun a c => a * 10 + digitCharValue c) 0

/-- The regex match of `loadCanvasData` against the pattern `-(\d+)$` (a
dash, then one or more digits, anchored at the end): the id must end in a
nonempty run of digits immediately preceded by `'-'`; the captured group is
that digit run. -/
def idSuffixMatch (s : String) : Option (List Char) :=
  let rev := s.toList.reverse
  let run := rev.takeWhile Char.isDigit
  if run.isEmpty then none
  else
    match (rev.dropWhile Char.isDigit).head? with
    | some c => if c = '-' then some run.reverse else none
    | none => none

/-- The per-node value in the counter-seeding fold of `loadCanvasData`:
`match ? parseInt(match[1], 10) : 0`. -/
def idSuffixValue (s : String) : Nat :=
  match idSuffixMatch s with
  | some ds => digitCharsValue ds
  | none => 0

/-- The counter seeding of `loadCanvasData`:
`Math.max(0, ...suffixes) + 1` over the loaded nodes. -/
def seedNodeIdCounter (nodes : List GraphNode) : Nat :=
  (nodes.map fun n => idSuffixValue n.id).foldl max 0 + 1

/-- Modelled from the spec: `screenToFlowPosition` is supplied by the flow
library (not part of this repository); §4.2 specifies the screen→graph
conversion as the affine transform inverting the viewport's translation and
zoom, `graph = (screen - translation) / zoom`. -/
def screenToFlowPosition (vp : Viewport) (p : Point) : Point :=
  { x := (p.x - vp.x) / vp.zoom, y := (p.y - vp.y) / vp.zoom }

/-- The fixed approximate node width used by the marquee hit test. -/
def approxNodeWidth : ℚ := 250

/-- The fixed approximate node height used by the marquee hit test. -/
def approxNodeHeight : ℚ := 150

/-- The marquee body of `handleMouseMove` in `FlowCanvas`: convert the
min/max corners of the drag rectangle (in container coordinates) to graph
space, keep the ids of the nodes whose approximate bounding box lies inside
the converted rectangle, and set every node's `selected` flag to membership
of its id in that list.  `selStart` is the stored `selectionStart`, `cur`
the current mouse position relative to the container. -/
def marqueeSelect (vp : Viewport) (nodes : List GraphNode) (selStart cur : Point) :
    List GraphNode :=
  let flowStart := screenToFlowPosition vp
    { x := min selStart.x cur.x, y := min selStart.y cur.y }
  let flowEnd := screenToFlowPosition vp
    { x := max selStart.x cur.x, y := max selStart.y cur.y }
  let selectedNodeIds := (nodes.filter fun node =>
      decide (flowStart.x ≤ node.position.x) && decide (flowStart.y ≤ node.position.y) &&
      decide (node.position.x + approxNodeWidth ≤ flowEnd.x) &&
      decide (node.position.y + approxNodeHeight ≤ flowEnd.y)).map fun node => node.id
  nodes.map fun node => { node with selected := selectedNodeIds.contains node.id }

/-- Componentwise minimum of two points. -/
def pointMin (p q : Point) : Point := { x := min p.x q.x, y := min p.y q.y }

/-- Componentwise maximum of two points. -/
def pointMax (p q : Point) : Point := { x := max p.x q.x, y := max p.y q.y }

/-- The marquee selection criterion as the spec states it: the node's full
bounding box — its position extended by the fixed approximate width and
height — lies entirely within the rectangle `[lo, hi]` in graph space. -/
def nodeBoxInRect (n : GraphNode) (lo hi : Point) : Prop :=
  lo.x ≤ n.position.x ∧ lo.y ≤ n.position.y ∧
    n.position.x + approxNodeWidth ≤ hi.x ∧ n.position.y + approxNodeHeight ≤ hi.y

instance (n : GraphNode) (lo hi : Point) : Decidable (nodeBoxInRect n lo hi) := by
  unfold nodeBoxInRect; infer_instance

/-- A row of the `canvases` table. -/
structure CanvasRow where
  id : String
  user_id : String
  canvas_name : String
  nodes : List GraphNode
  edges : List GraphEdge
  viewport : Viewport
deriving DecidableEq, Repr

/-- A row of the `canvas_shares` table. -/
structure ShareRow where
  canvas_id : String
  shared_with_user_id : String
  permission : String
deriving DecidableEq, Repr

/-- The remote store contents visible to `canvasOperations.loadCanvas`. -/
structure Db where
  canvases : List CanvasRow
  canvas_shares : List ShareRow
deriving DecidableEq, Repr

/-- What `loadCanvas` resolves to: the spread `{ ...data, permission, isOwner }`.
When `data` is `null` the spread contributes nothing, so every record field
is absent (`none`) and only `permission` and `isOwner` are present. -/
structure LoadedCanvas where
  id : Option String
  nodes : Option (List GraphNode)
  edges : Option (List GraphEdge)
  viewport : Option Viewport
  canvas_name : Option String
  permission : String
  isOwner : Bool
deriving DecidableEq, Repr

/-- Spread of an existing row into the `loadCanvas` result shape. -/
def rowToLoaded (r : CanvasRow) (permission : String) (isOwner : Bool) : LoadedCanvas :=
  { id := some r.id, nodes := some r.nodes, edges := some r.edges,
    viewport := some r.viewport, canvas_name := some r.canvas_name,
    permission := permission, isOwner := isOwner }

/-- `canvasOperations.loadCanvas`: by id when given (`maybeSingle`, so no
match yields `null` data and the final return spreads it into the stub
`{ permission: 'edit', isOwner: true }`; a row owned by someone else
requires a share row or the call throws `Access denied`); by the default
user's canvas name otherwise, yielding `null` when no row matches. -/
def loadCanvas (db : Db) (canvasId : Option String) (canvasName : String) :
    Except Unit (Option LoadedCanvas) :=
  match canvasId with
  | some cid =>
      match db.canvases.find? fun r => r.id = cid with
      | some row =>
          if row.user_id ≠ "default-user" then
            match db.canvas_shares.find? fun sh =>
                sh.canvas_id = cid ∧ sh.shared_with_user_id = "default-user" with
            | some share => .ok (some (rowToLoaded row share.permission false))
            | none => .error ()
          else .ok (some (rowToLoaded row "edit" true))
      | none =>
          .ok (some { id := none, nodes := none, edges := none, viewport := none,
                      canvas_name := none, permission := "edit", isOwner := true })
  | none =>
      match db.canvases.find? fun r =>
          r.user_id = "default-user" ∧ r.canvas_name = canvasName with
      | some row => .ok (some (rowToLoaded row "edit" true))
      | none => .ok none

/-- The session fields `loadCanvasData` in `FlowCanvas` initializes from a
load result. -/
structure LoadedSession where
  nodes : List GraphNode
  edges : List GraphEdge
  canvasName : String
  nodeIdCounter : Nat
  lastSavedTime : String
deriving DecidableEq, Repr

/-- The `if (canvasData) { ... } else { ... }` branch of `loadCanvasData`:
any non-null result — the nonexistent-id stub included — is treated as an
existing canvas (fields defaulted when absent, counter seeded, label
`'just now'`); a `null` result leaves the empty initial graph with label
`'never'`. -/
def applyLoadResult : Option LoadedCanvas → LoadedSession
  | some canvasData =>
      let nodes := canvasData.nodes.getD []
      { nodes := nodes,
        edges := canvasData.edges.getD [],
        canvasName :=
          match canvasData.canvas_name with
          | some s => if s = "" then "My Canvas" else s
          | none => "My Canvas",
        nodeIdCounter := seedNodeIdCounter nodes,
        lastSavedTime := "just now" }
  | none =>
      { nodes := [], edges := [], canvasName := "My Canvas",
        nodeIdCounter := 1, lastSavedTime := "never" }

/-- A concrete session with the empty graph and the initial viewport, for
witnesses. -/
def emptySession : SessionState :=
  { nodes := [], edges := [], viewport := { x := 0, y := 0, zoom := 1 },
    canvasName := "My Canvas", currentCanvasId := none, lastSaveData := none,
    saveError := none, lastSavedTime := "never" }

/-- A concrete environment whose external calls all succeed. -/
def okEnv : SaveEnv :=
  { thumbnailResult := .ok "data:image/svg+xml;base64,AA", upsertResult := .ok "canvas-1" }

/-- A concrete environment whose thumbnail call throws. -/
def thumbFailEnv : SaveEnv :=
  { thumbnailResult := .error (), upsertResult := .ok "canvas-1" }

/-- A concrete session holding one text node, for witnesses. -/
def oneNodeSession : SessionState :=
  { nodes := [{ id := "text-1", type := some "textNode", position := { x := 100, y := 100 },
                data := { title := some "Text Input", isActive := false },
                selected := false }],
    edges := [], viewport := { x := 0, y := 0, zoom := 1 },
    canvasName := "My Canvas", currentCanvasId := some "canvas-1", lastSaveData := none,
    saveError := none, lastSavedTime := "just now" }

/-- A concrete store holding one unrelated canvas row, for witnesses. -/
def sampleDb : Db :=
  { canvases :=
      [{ id := "canvas-9", user_id := "default-user", canvas_name := "Other",
         nodes := [], edges := [], viewport := { x := 0, y := 0, zoom := 1 } }],
    canvas_shares := [] }

/-! ## Theorems -/

theorem deleteSelected_mem_nodes (nodes : List GraphNode) (edges : List GraphEdge)
    (n : GraphNode) :
    n ∈ (deleteSelectedNodes nodes edges).1 ↔
      n ∈ nodes ∧ ¬ ∃ m ∈ nodes, m.selected = true ∧ m.id = n.id := by
  unfold deleteSelectedNodes
  by_cases h : 0 < ((nodes.filter fun n => n.selected).map fun n => n.id).length
  · simp only [h, if_pos, List.mem_filter, Bool.not_eq_true', List.contains,
      List.elem_eq_mem, decide_eq_false_iff_not, List.mem_map, List.mem_filter]
    constructor
    · rintro ⟨hn, hno⟩
      exact ⟨hn, fun ⟨m, hm, hsel, hid⟩ => hno ⟨m, ⟨hm, hsel⟩, hid⟩⟩
    · rintro ⟨hn, hno⟩
      exact ⟨hn, fun ⟨m, ⟨hm, hsel⟩, hid⟩ => hno ⟨m, hm, hsel, hid⟩⟩
  · have hnosel : ∀ m ∈ nodes, m.selected = false := by
      simpa using Nat.eq_zero_of_not_pos h
    simp only [h, if_neg, not_false_iff]
    constructor
    · intro hn
      refine ⟨hn, ?_⟩
      rintro ⟨m, hm, hsel, -⟩
      simp [hnosel m hm] at hsel
    · exact fun ⟨hn, _⟩ => hn

theorem deleteSelected_mem_edges (nodes : List GraphNode) (edges : List GraphEdge)
    (e : GraphEdge) :
    e ∈ (deleteSelectedNodes nodes edges).2 ↔
      e ∈ edges ∧ (¬ ∃ m ∈ nodes, m.selected = true ∧ m.id = e.source) ∧
        ¬ ∃ m ∈ nodes, m.selected = true ∧ m.id = e.target := by
  unfold deleteSelectedNodes
  by_cases h : 0 < ((nodes.filter fun n => n.selected).map fun n => n.id).length
  · simp only [h, if_pos, List.mem_filter, Bool.and_eq_true, Bool.not_eq_true',
      List.contains, List.elem_eq_mem, decide_eq_false_iff_not, List.mem_map,
      List.mem_filter]
    constructor
    · rintro ⟨he, hs, ht⟩
      exact ⟨he, fun ⟨m, hm, hsel, hid⟩ => hs ⟨m, ⟨hm, hsel⟩, hid⟩,
        fun ⟨m, hm, hsel, hid⟩ => ht ⟨m, ⟨hm, hsel⟩, hid⟩⟩
    · rintro ⟨he, hs, ht⟩
      exact ⟨he, fun ⟨m, ⟨hm, hsel⟩, hid⟩ => hs ⟨m, hm, hsel, hid⟩,
        fun ⟨m, ⟨hm, hsel⟩, hid⟩ => ht ⟨m, hm, hsel, hid⟩⟩
  · have hnosel : ∀ m ∈ nodes, m.selected = false := by
      simpa using Nat.eq_zero_of_not_pos h
    simp only [h, if_neg, not_false_iff]
    constructor
    · intro he
      refine ⟨he, ?_, ?_⟩
      · rintro ⟨m, hm, hsel, -⟩
        simp [hnosel m hm] at hsel
      · rintro ⟨m, hm, hsel, -⟩
        simp [hnosel m hm] at hsel
    · exact fun ⟨he, _, _⟩ => he

theorem applyGraphOp_noDangling (s : GraphState) (op : GraphOp)
    (h : noDanglingEdges s) : noDanglingEdges (applyGraphOp s op) := by
  cases op with
  | addNode nodeType pos =>
      intro e he
      obtain ⟨⟨n₁, hn₁, hid₁⟩, ⟨n₂, hn₂, hid₂⟩⟩ := h e he
      exact ⟨⟨n₁, List.mem_append_left _ hn₁, hid₁⟩,
        ⟨n₂, List.mem_append_left _ hn₂, hid₂⟩⟩
  | deleteSelected =>
      intro e he
      have he' := (deleteSelected_mem_edges s.nodes s.edges e).mp he
      obtain ⟨hee, hs, ht⟩ := he'
      obtain ⟨⟨n₁, hn₁, hid₁⟩, ⟨n₂, hn₂, hid₂⟩⟩ := h e hee
      refine ⟨⟨n₁, ?_, hid₁⟩, ⟨n₂, ?_, hid₂⟩⟩
      · exact (deleteSelected_mem_nodes s.nodes s.edges n₁).mpr
          ⟨hn₁, fun ⟨m, hm, hsel, hid⟩ => hs ⟨m, hm, hsel, hid.trans hid₁⟩⟩
      · exact (deleteSelected_mem_nodes s.nodes s.edges n₂).mpr
          ⟨hn₂, fun ⟨m, hm, hsel, hid⟩ => ht ⟨m, hm, hsel, hid.trans hid₂⟩⟩

theorem runGraphOps_noDangling (s : GraphState) (ops : List GraphOp)
    (h : noDanglingEdges s) : noDanglingEdges (runGraphOps s ops) := by
  induction ops generalizing s with
  | nil => exact h
  | cons op rest ih => exact ih (applyGraphOp s op) (applyGraphOp_noDangling s op h)

/-- C1: the delete-selected operation removes the selected nodes and exactly
the edges whose source or target is a deleted node and no others; after any
sequence of node additions and delete-selected operations starting from an
internally consistent graph, every edge has both endpoints present in the
node set. -/
theorem deleteSelected_exact_and_sequences_no_dangling :
    (∀ (nodes : List GraphNode) (edges : List GraphEdge) (e : GraphEdge),
        e ∈ (deleteSelectedNodes nodes edges).2 ↔
          e ∈ edges ∧
            ¬ ∃ n ∈ nodes, n ∉ (deleteSelectedNodes nodes edges).1 ∧
              (n.id = e.source ∨ n.id = e.target)) ∧
    (∀ (nodes : List GraphNode) (edges : List GraphEdge) (n : GraphNode),
        n ∈ nodes → n.selected = true → n ∉ (deleteSelectedNodes nodes edges).1) ∧
    (∀ (nodes : List GraphNode) (edges : List GraphEdge) (n : GraphNode),
        n ∈ (deleteSelectedNodes nodes edges).1 → n ∈ nodes) ∧
    (∀ (s : GraphState) (ops : List GraphOp),
        noDanglingEdges s → noDanglingEdges (runGraphOps s ops)) := by
  refine ⟨?_, ?_, ?_, runGraphOps_noDangling⟩
  · intro nodes edges e
    rw [deleteSelected_mem_edges]
    constructor
    · rintro ⟨he, hs, ht⟩
      refine ⟨he, ?_⟩
      rintro ⟨n, hn, hgone, hend⟩
      have := (deleteSelected_mem_nodes nodes edges n).mpr
      have hex : ∃ m ∈ nodes, m.selected = true ∧ m.id = n.id := by
        by_contra hno
        exact hgone (this ⟨hn, hno⟩)
      obtain ⟨m, hm, hsel, hid⟩ := hex
      cases hend with
      | inl h₁ => exact hs ⟨m, hm, hsel, hid.trans h₁⟩
      | inr h₂ => exact ht ⟨m, hm, hsel, hid.trans h₂⟩
    · rintro ⟨he, hno⟩
      refine ⟨he, ?_, ?_⟩
      · rintro ⟨m, hm, hsel, hid⟩
        refine hno ⟨m, hm, ?_, Or.inl hid⟩
        intro hmem
        have := (deleteSelected_mem_nodes nodes edges m).mp hmem
        exact this.2 ⟨m, hm, hsel, rfl⟩
      · rintro ⟨m, hm, hsel, hid⟩
        refine hno ⟨m, hm, ?_, Or.inr hid⟩
        intro hmem
        have := (deleteSelected_mem_nodes nodes edges m).mp hmem
        exact this.2 ⟨m, hm, hsel, rfl⟩
  · intro nodes edges n hn hsel hmem
    have := (deleteSelected_mem_nodes nodes edges n).mp hmem
    exact this.2 ⟨n, hn, hsel, rfl⟩
  · intro nodes edges n hmem
    exact ((deleteSelected_mem_nodes nodes edges n).mp hmem).1

/-- Witness for C1 at a concrete two-node graph with one selected node. -/
theorem deleteSelected_exact_and_sequences_no_dangling_witness :
    noDanglingEdges
      { nodes := [{ id := "text-1", type := some "textNode", position := { x := 0, y := 0 },
                    data := { title := none, isActive := false }, selected := true },
                  { id := "text-2", type := some "textNode", position := { x := 5, y := 5 },
                    data := { title := none, isActive := false }, selected := false }],
        edges := [{ id := "e1", source := "text-1", target := "text-2" }],
        nodeIdCounter := 3 } ∧
    noDanglingEdges
      (runGraphOps
        { nodes := [{ id := "text-1", type := some "textNode", position := { x := 0, y := 0 },
                      data := { title := none, isActive := false }, selected := true },
                    { id := "text-2", type := some "textNode", position := { x := 5, y := 5 },
                      data := { title := none, isActive := false }, selected := false }],
          edges := [{ id := "e1", source := "text-1", target := "text-2" }],
          nodeIdCounter := 3 }
        [GraphOp.deleteSelected]) :=
  ⟨by decide,
    deleteSelected_exact_and_sequences_no_dangling.2.2.2 _ [GraphOp.deleteSelected]
      (by decide)⟩

theorem saveCanvasData_lastSaveData_of_ok (st : SessionState) (env : SaveEnv)
    (i : String) (h : env.upsertResult = .ok i) :
    (saveCanvasData st env).lastSaveData = some (snapshotOf st) := by
  unfold saveCanvasData
  by_cases hg : st.lastSaveData = some (snapshotOf st)
  · simp [hg]
  · simp [hg, h]

/-- C2: a save attempt whose snapshot fingerprint equals the fingerprint
recorded at the last accepted save performs no write at all — no thumbnail
generation, no upsert, no cleanup; consequently, of two consecutive save
attempts with identical serialized snapshots where the first is accepted,
the second performs no write to the store. -/
theorem save_skipped_when_fingerprint_unchanged :
    (∀ (st : SessionState) (env : SaveEnv),
        st.lastSaveData = some (snapshotOf st) →
          (saveCanvasData st env).upsertCalled = false ∧
          (saveCanvasData st env).thumbnailCalled = false ∧
          (saveCanvasData st env).cleanupCalled = false ∧
          (saveCanvasData st env).written = none) ∧
    (∀ (st st' : SessionState) (env env' : SaveEnv) (i : String),
        env.upsertResult = .ok i →
        snapshotOf st' = snapshotOf st →
        st'.lastSaveData = (saveCanvasData st env).lastSaveData →
          (saveCanvasData st' env').upsertCalled = false ∧
          (saveCanvasData st' env').thumbnailCalled = false ∧
          (saveCanvasData st' env').cleanupCalled = false ∧
          (saveCanvasData st' env').written = none) := by
  have skip : ∀ (st : SessionState) (env : SaveEnv),
      st.lastSaveData = some (snapshotOf st) →
        (saveCanvasData st env).upsertCalled = false ∧
        (saveCanvasData st env).thumbnailCalled = false ∧
        (saveCanvasData st env).cleanupCalled = false ∧
        (saveCanvasData st env).written = none := by
    intro st env hg
    unfold saveCanvasData
    simp [hg]
  refine ⟨skip, ?_⟩
  intro st st' env env' i hok hsnap href
  refine skip st' env' ?_
  rw [href, saveCanvasData_lastSaveData_of_ok st env i hok, hsnap]

/-- Witness for C2: after an accepted save of the empty snapshot, a second
attempt with the identical snapshot performs no write. -/
theorem save_skipped_when_fingerprint_unchanged_witness :
    okEnv.upsertResult = Except.ok "canvas-1" ∧
    snapshotOf { emptySession with lastSaveData := some (snapshotOf emptySession) } =
      snapshotOf emptySession ∧
    (saveCanvasData { emptySession with lastSaveData := some (snapshotOf emptySession) }
        okEnv).upsertCalled = false ∧
    (saveCanvasData { emptySession with lastSaveData := some (snapshotOf emptySession) }
        okEnv).written = none := by
  have h := save_skipped_when_fingerprint_unchanged.2 emptySession
    { emptySession with lastSaveData := some (snapshotOf emptySession) }
    okEnv okEnv "canvas-1" rfl rfl
    (by rw [saveCanvasData_lastSaveData_of_ok emptySession okEnv "canvas-1" rfl])
  exact ⟨rfl, rfl, h.1, h.2.2.2⟩

/-- Counterexample to C4 as stated: with the recorded fingerprint equal to
the current snapshot's, a manual save still calls the upsert (it performs a
write), and a successful manual save leaves the recorded fingerprint
untouched (here `none`) instead of updating it. -/
theorem manualSave_writes_despite_equal_fingerprint :
    ({ emptySession with lastSaveData := some (snapshotOf emptySession) }
        : SessionState).lastSaveData =
      some (snapshotOf { emptySession with lastSaveData := some (snapshotOf emptySession) }) ∧
    (manualSave { emptySession with lastSaveData := some (snapshotOf emptySession) }
        okEnv).upsertCalled = true ∧
    okEnv.upsertResult = Except.ok "canvas-1" ∧
    (manualSave emptySession okEnv).lastSaveData = none ∧
    (manualSave emptySession okEnv).lastSaveData ≠ some (snapshotOf emptySession) := by
  refine ⟨rfl, rfl, rfl, rfl, ?_⟩
  intro h
  exact Option.noConfusion h

/-- C4 (amended): the manual-save command performs the thumbnail, upsert,
cleanup and status steps immediately, without the debounce delay, but it
skips the fingerprint comparison — it calls the upsert even when the
snapshot fingerprint equals that of the last accepted save — and it never
updates the recorded fingerprint. -/
theorem manualSave_always_upserts_and_keeps_fingerprint :
    ∀ (st : SessionState) (env : SaveEnv),
      (manualSave st env).upsertCalled = true ∧
      (manualSave st env).lastSaveData = st.lastSaveData ∧
      (manualSave st env).thumbnailCalled = !st.nodes.isEmpty ∧
      (∀ i, env.upsertResult = .ok i →
        (manualSave st env).written = some (savedRecordFor st (thumbnailUrlOf st env)) ∧
        (manualSave st env).cleanupCalled = true ∧
        (manualSave st env).saveError = none ∧
        (manualSave st env).lastSavedTime = "just now") := by
  intro st env
  unfold manualSave
  cases h : env.upsertResult with
  | ok i => simp [h]
  | error e => simp [h]

/-- Witness for the amended C4 at a concrete one-node session whose
fingerprint matches the pending snapshot. -/
theorem manualSave_always_upserts_and_keeps_fingerprint_witness :
    okEnv.upsertResult = Except.ok "canvas-1" ∧
    (manualSave { oneNodeSession with lastSaveData := some (snapshotOf oneNodeSession) }
        okEnv).upsertCalled = true ∧
    (manualSave { oneNodeSession with lastSaveData := some (snapshotOf oneNodeSession) }
        okEnv).written =
      some (savedRecordFor
        { oneNodeSession with lastSaveData := some (snapshotOf oneNodeSession) }
        (thumbnailUrlOf
          { oneNodeSession with lastSaveData := some (snapshotOf oneNodeSession) } okEnv)) := by
  have h := manualSave_always_upserts_and_keeps_fingerprint
    { oneNodeSession with lastSaveData := some (snapshotOf oneNodeSession) } okEnv
  exact ⟨rfl, h.1, (h.2.2.2 "canvas-1" rfl).1⟩

theorem runSession_fixed (evs : List SessionEvent) (s : AutoSaveState)
    (hno : SessionEvent.loadComplete ∉ evs) (hl : s.isLoaded = false)
    (hp : s.pendingTimer = false) : evs.foldl autoSaveStep s = s := by
  induction evs with
  | nil => rfl
  | cons e rest ih =>
      have hne : e ≠ SessionEvent.loadComplete := by
        intro he
        exact hno (he ▸ List.mem_cons_self e rest)
      have hstep : autoSaveStep s e = s := by
        cases e with
        | mutate => simp [autoSaveStep, hl]
        | loadComplete => exact absurd rfl hne
        | timerFire => simp [autoSaveStep, hp]
      rw [List.foldl_cons, hstep]
      exact ih (fun hm => hno (List.mem_cons_of_mem e hm))

/-- C5: as long as the initial load has not completed, no save is scheduled
and no debounced save body executes — the session scheduling state is still
the mount state, with no pending timer and zero executed saves. -/
theorem no_save_before_load_completes :
    ∀ evs : List SessionEvent, SessionEvent.loadComplete ∉ evs →
      (runSession evs).pendingTimer = false ∧ (runSession evs).executedSaves = 0 ∧
        runSession evs = initialAutoSaveState := by
  intro evs hno
  have h : runSession evs = initialAutoSaveState :=
    runSession_fixed evs initialAutoSaveState hno rfl rfl
  exact ⟨by rw [h]; rfl, by rw [h]; rfl, h⟩

/-- Witness for C5: a trace of mutations and timer firings with no load
completion leaves the mount state unchanged. -/
theorem no_save_before_load_completes_witness :
    SessionEvent.loadComplete ∉
      [SessionEvent.mutate, SessionEvent.timerFire, SessionEvent.mutate] ∧
    (runSession [SessionEvent.mutate, SessionEvent.timerFire,
        SessionEvent.mutate]).pendingTimer = false ∧
    (runSession [SessionEvent.mutate, SessionEvent.timerFire,
        SessionEvent.mutate]).executedSaves = 0 :=
  ⟨by decide,
    (no_save_before_load_completes _ (by decide)).1,
    (no_save_before_load_completes _ (by decide)).2.1⟩

/-- C3: the clone-id suffix is `nodeIdCounter + nodes.length`, the same for
every clone of one duplicate command, so duplicating two selected nodes of
the same type (here both `textNode`, counter 3, two nodes) assigns both
clones the id `text-5`: the new ids are not pairwise distinct.  The counter
still advances by the number of clones, to 5. -/
theorem duplicate_two_selected_same_type_id_collision :
    ((duplicateSelectedNodes
        [{ id := "text-1", type := some "textNode", position := { x := 0, y := 0 },
           data := { title := none, isActive := false }, selected := true },
         { id := "text-2", type := some "textNode", position := { x := 40, y := 40 },
           data := { title := none, isActive := false }, selected := true }] 3).1.map
        fun n => n.id) =
      ["text-1", "text-2", mkNodeId "text" 5, mkNodeId "text" 5] ∧
    (duplicateSelectedNodes
        [{ id := "text-1", type := some "textNode", position := { x := 0, y := 0 },
           data := { title := none, isActive := false }, selected := true },
         { id := "text-2", type := some "textNode", position := { x := 40, y := 40 },
           data := { title := none, isActive := false }, selected := true }] 3).2 = 5 :=
  ⟨rfl, rfl⟩

theorem digitCharValue_digitChar (d : Nat) (hd : d < 10) :
    digitCharValue (Nat.digitChar d) = d := by
  interval_cases d <;> rfl

theorem isDigit_digitChar (d : Nat) (hd : d < 10) :
    (Nat.digitChar d).isDigit = true := by
  interval_cases d <;> rfl

theorem digitCharsValue_append_singleton (ds : List Char) (c : Char) :
    digitCharsValue (ds ++ [c]) = digitCharsValue ds * 10 + digitCharValue c := by
  unfold digitCharsValue
  rw [List.foldl_append]
  rfl

theorem digitCharsValue_rev_map_digitChar (l : List Nat) (h : ∀ d ∈ l, d < 10) :
    digitCharsValue ((l.map Nat.digitChar).reverse) = Nat.ofDigits 10 l := by
  induction l with
  | nil => rfl
  | cons d t ih =>
      simp only [List.map_cons, List.reverse_cons]
      rw [digitCharsValue_append_singleton,
        ih fun x hx => h x (List.mem_cons_of_mem _ hx),
        digitCharValue_digitChar d (h d (List.mem_cons_self _ _)),
        Nat.ofDigits_cons]
      ring

theorem digitCharsValue_natDecimal (k : Nat) :
    digitCharsValue (natDecimal k).toList = k := by
  unfold natDecimal
  by_cases hk : k = 0
  · subst hk; rfl
  · simp only [hk, if_neg, not_false_iff]
    have h10 : ∀ d ∈ Nat.digits 10 k, d < 10 := fun d hd =>
      Nat.digits_lt_base (by norm_num) hd
    show digitCharsValue ((Nat.digits 10 k).reverse.map Nat.digitChar) = k
    rw [List.map_reverse, digitCharsValue_rev_map_digitChar _ h10, Nat.ofDigits_digits]

theorem natDecimal_all_digits (k : Nat) :
    ∀ c ∈ (natDecimal k).toList, c.isDigit = true := by
  unfold natDecimal
  by_cases hk : k = 0
  · subst hk
    intro c hc
    simp only [if_pos] at hc
    have : c = '0' := by simpa using hc
    subst this; rfl
  · simp only [hk, if_neg, not_false_iff]
    intro c hc
    have hc' : c ∈ (Nat.digits 10 k).reverse.map Nat.digitChar := hc
    obtain ⟨d, hd, rfl⟩ := List.mem_map.mp hc'
    exact isDigit_digitChar d (Nat.digits_lt_base (by norm_num) (List.mem_reverse.mp hd))

theorem natDecimal_toList_ne_nil (k : Nat) : (natDecimal k).toList ≠ [] := by
  unfold natDecimal
  by_cases hk : k = 0
  · subst hk; simp
  · simp only [hk, if_neg, not_false_iff]
    show (Nat.digits 10 k).reverse.map Nat.digitChar ≠ []
    simp [Nat.digits_ne_nil_iff_ne_zero, hk]

theorem takeWhile_all_append {α : Type} (p : α → Bool) (l₁ l₂ : List α) (c : α)
    (h₁ : ∀ x ∈ l₁, p x = true) (hc : p c = false) :
    (l₁ ++ c :: l₂).takeWhile p = l₁ := by
  induction l₁ with
  | nil => simp [List.takeWhile_cons, hc]
  | cons a t ih =>
      have ha : p a = true := h₁ a (List.mem_cons_self _ _)
      simp only [List.cons_append, List.takeWhile_cons, ha, if_pos]
      rw [ih fun x hx => h₁ x (List.mem_cons_of_mem _ hx)]

theorem dropWhile_all_append {α : Type} (p : α → Bool) (l₁ l₂ : List α) (c : α)
    (h₁ : ∀ x ∈ l₁, p x = true) (hc : p c = false) :
    (l₁ ++ c :: l₂).dropWhile p = c :: l₂ := by
  induction l₁ with
  | nil => simp [List.dropWhile_cons, hc]
  | cons a t ih =>
      have ha : p a = true := h₁ a (List.mem_cons_self _ _)
      simp only [List.cons_append, List.dropWhile_cons, ha, if_pos]
      exact ih fun x hx => h₁ x (List.mem_cons_of_mem _ hx)

theorem idSuffixMatch_mkNodeId (t : String) (k : Nat) :
    idSuffixMatch (mkNodeId t k) = some (natDecimal k).toList := by
  have hlist : (t ++ "-" ++ natDecimal k).toList =
      t.toList ++ '-' :: (natDecimal k).toList := by
    show (t ++ "-" ++ natDecimal k).data = t.data ++ '-' :: (natDecimal k).data
    rw [String.data_append, String.data_append]
    simp [String.data]
  have key : (t ++ "-" ++ natDecimal k).toList.reverse =
      (natDecimal k).toList.reverse ++ '-' :: t.toList.reverse := by
    rw [hlist, List.reverse_append, List.reverse_cons, List.append_assoc]
    simp
  have hdig : ∀ x ∈ (natDecimal k).toList.reverse, x.isDigit = true := fun x hx =>
    natDecimal_all_digits k x (List.mem_reverse.mp hx)
  have hdash : ('-').isDigit = false := rfl
  have hTW := takeWhile_all_append Char.isDigit ((natDecimal k).toList.reverse)
    (t.toList.reverse) '-' hdig hdash
  have hDW := dropWhile_all_append Char.isDigit ((natDecimal k).toList.reverse)
    (t.toList.reverse) '-' hdig hdash
  have hne : ((natDecimal k).toList.reverse).isEmpty = false := by
    rcases h : (natDecimal k).toList.reverse with - | ⟨c, rest⟩
    · exact absurd (by simpa using h) (natDecimal_toList_ne_nil k)
    · rfl
  unfold idSuffixMatch mkNodeId
  simp only [key, hTW, hDW, hne, Bool.false_eq_true, if_neg, not_false_iff,
    List.head?_cons, List.reverse_reverse, if_pos]

theorem idSuffixValue_mkNodeId (t : String) (k : Nat) :
    idSuffixValue (mkNodeId t k) = k := by
  unfold idSuffixValue
  rw [idSuffixMatch_mkNodeId]
  exact digitCharsValue_natDecimal k

theorem foldl_max_init_le (l : List Nat) (a : Nat) : a ≤ l.foldl max a := by
  induction l generalizing a with
  | nil => exact Nat.le_refl a
  | cons b t ih => exact le_trans (le_max_left a b) (ih (max a b))

theorem le_foldl_max (l : List Nat) (a x : Nat) (hx : x ∈ l) : x ≤ l.foldl max a := by
  induction l generalizing a with
  | nil => cases hx
  | cons b t ih =>
      rcases List.mem_cons.mp hx with rfl | hxt
      · exact le_trans (le_max_right a x) (foldl_max_init_le t (max a x))
      · exact ih (max a b) hxt

theorem foldl_max_le (l : List Nat) (a c : Nat) (ha : a ≤ c)
    (h : ∀ x ∈ l, x ≤ c) : l.foldl max a ≤ c := by
  induction l generalizing a with
  | nil => exact ha
  | cons b t ih =>
      exact ih (max a b) (max_le ha (h b (List.mem_cons_self _ _)))
        fun x hx => h x (List.mem_cons_of_mem _ hx)

theorem runGraphOps_counter_mono (s : GraphState) (ops : List GraphOp) :
    s.nodeIdCounter ≤ (runGraphOps s ops).nodeIdCounter := by
  induction ops generalizing s with
  | nil => exact Nat.le_refl _
  | cons op rest ih =>
      refine le_trans ?_ (ih (applyGraphOp s op))
      cases op with
      | addNode nodeType pos => exact Nat.le_succ _
      | deleteSelected => exact Nat.le_refl _

/-- C7: the node-id counter is seeded on load to one plus the maximum
trailing numeric suffix over the loaded nodes (one plus zero when no node
has a numeric suffix); every loaded suffix is strictly below the seed, and
any id formed from the counter at or above the seed — the counter never
decreases under the graph commands, deletions included — differs from every
previously saved node id. -/
theorem seeded_counter_never_collides :
    (∀ loaded : List GraphNode,
        (∀ n ∈ loaded, idSuffixMatch n.id = none) → seedNodeIdCounter loaded = 1) ∧
    (∀ loaded : List GraphNode, ∀ n ∈ loaded,
        idSuffixValue n.id < seedNodeIdCounter loaded) ∧
    (∀ (loaded : List GraphNode) (t : String) (k : Nat),
        seedNodeIdCounter loaded ≤ k → ∀ n ∈ loaded, mkNodeId t k ≠ n.id) ∧
    (∀ (s : GraphState) (ops : List GraphOp),
        s.nodeIdCounter ≤ (runGraphOps s ops).nodeIdCounter) := by
  have hlt : ∀ loaded : List GraphNode, ∀ n ∈ loaded,
      idSuffixValue n.id < seedNodeIdCounter loaded := by
    intro loaded n hn
    have : idSuffixValue n.id ≤ (loaded.map fun m => idSuffixValue m.id).foldl max 0 :=
      le_foldl_max _ 0 _ (List.mem_map.mpr ⟨n, hn, rfl⟩)
    exact Nat.lt_succ_of_le this
  refine ⟨?_, hlt, ?_, runGraphOps_counter_mono⟩
  · intro loaded hnone
    unfold seedNodeIdCounter
    have hz : (loaded.map fun m => idSuffixValue m.id).foldl max 0 = 0 := by
      refine Nat.le_antisymm ?_ (foldl_max_init_le _ 0)
      refine foldl_max_le _ 0 0 (Nat.le_refl 0) ?_
      intro x hx
      obtain ⟨n, hn, rfl⟩ := List.mem_map.mp hx
      unfold idSuffixValue
      rw [hnone n hn]
    rw [hz]
  · intro loaded t k hk n hn heq
    have hv : idSuffixValue n.id = k := by
      rw [← heq, idSuffixValue_mkNodeId]
    have := hlt loaded n hn
    rw [hv] at this
    exact absurd hk (Nat.not_le_of_lt this)

/-- Witness for C7: loading a canvas whose only node is `text-2` seeds the
counter to 3; the id formed at counter value 5 differs from the saved id. -/
theorem seeded_counter_never_collides_witness :
    seedNodeIdCounter
      [{ id := "text-2", type := some "textNode", position := { x := 0, y := 0 },
         data := { title := none, isActive := false }, selected := false }] ≤ 5 ∧
    mkNodeId "text" 5 ≠
      ({ id := "text-2", type := some "textNode", position := { x := 0, y := 0 },
         data := { title := none, isActive := false },
         selected := false } : GraphNode).id :=
  ⟨by decide,
    seeded_counter_never_collides.2.2.1
      [{ id := "text-2", type := some "textNode", position := { x := 0, y := 0 },
         data := { title := none, isActive := false }, selected := false }]
      "text" 5 (by decide)
      { id := "text-2", type := some "textNode", position := { x := 0, y := 0 },
        data := { title := none, isActive := false }, selected := false }
      (by decide)⟩

theorem thumbnailUrlOf_of_error (st : SessionState) (env : SaveEnv)
    (h : env.thumbnailResult = .error ()) : thumbnailUrlOf st env = none := by
  unfold thumbnailUrlOf
  rw [h]
  split <;> rfl

/-- C8: when thumbnail synthesis throws, the save attempt still performs the
upsert and cleanup and succeeds exactly as with a successful thumbnail — the
two runs record the same fingerprint and canvas id, no error is set — and
the written record is the successful run's record with the thumbnail field
omitted. -/
theorem thumbnail_failure_save_proceeds :
    ∀ (st : SessionState) (envF envS : SaveEnv) (u i : String),
      envF.thumbnailResult = .error () → envS.thumbnailResult = .ok u →
      envF.upsertResult = .ok i → envS.upsertResult = .ok i →
      st.lastSaveData ≠ some (snapshotOf st) →
        (saveCanvasData st envF).upsertCalled = true ∧
        (saveCanvasData st envF).cleanupCalled = true ∧
        (saveCanvasData st envF).saveError = none ∧
        (saveCanvasData st envF).lastSavedTime = "just now" ∧
        (saveCanvasData st envF).lastSaveData = (saveCanvasData st envS).lastSaveData ∧
        (saveCanvasData st envF).currentCanvasId = (saveCanvasData st envS).currentCanvasId ∧
        (saveCanvasData st envF).written =
          ((saveCanvasData st envS).written.map fun r =>
            { r with thumbnail_url := none }) := by
  intro st envF envS u i hF hS hFok hSok hg
  have hthumbF : thumbnailUrlOf st envF = none := thumbnailUrlOf_of_error st envF hF
  have hA : saveCanvasData st envF =
      { upsertCalled := true, thumbnailCalled := !st.nodes.isEmpty,
        cleanupCalled := true,
        written := some (savedRecordFor st (thumbnailUrlOf st envF)),
        lastSaveData := some (snapshotOf st), saveError := none,
        lastSavedTime := "just now",
        currentCanvasId :=
          match st.currentCanvasId with
          | some cid => some cid
          | none => some i } := by
    simp only [saveCanvasData]
    rw [if_neg hg, hFok]
  have hB : saveCanvasData st envS =
      { upsertCalled := true, thumbnailCalled := !st.nodes.isEmpty,
        cleanupCalled := true,
        written := some (savedRecordFor st (thumbnailUrlOf st envS)),
        lastSaveData := some (snapshotOf st), saveError := none,
        lastSavedTime := "just now",
        currentCanvasId :=
          match st.currentCanvasId with
          | some cid => some cid
          | none => some i } := by
    simp only [saveCanvasData]
    rw [if_neg hg, hSok]
  rw [hA, hB]
  refine ⟨rfl, rfl, rfl, rfl, rfl, rfl, ?_⟩
  show some (savedRecordFor st (thumbnailUrlOf st envF)) =
    (some (savedRecordFor st (thumbnailUrlOf st envS))).map fun r =>
      { r with thumbnail_url := none }
  rw [hthumbF]
  unfold savedRecordFor
  cases hu : thumbnailUrlOf st envS with
  | none => simp
  | some v => simp

/-- Witness for C8 at a one-node session: the failed-thumbnail save upserts,
sets no error, and writes the same record as the successful-thumbnail save
minus the thumbnail field. -/
theorem thumbnail_failure_save_proceeds_witness :
    thumbFailEnv.thumbnailResult = Except.error () ∧
    okEnv.thumbnailResult = Except.ok "data:image/svg+xml;base64,AA" ∧
    thumbFailEnv.upsertResult = Except.ok "canvas-1" ∧
    oneNodeSession.lastSaveData ≠ some (snapshotOf oneNodeSession) ∧
    (saveCanvasData oneNodeSession thumbFailEnv).upsertCalled = true ∧
    (saveCanvasData oneNodeSession thumbFailEnv).saveError = none ∧
    (saveCanvasData oneNodeSession thumbFailEnv).written =
      ((saveCanvasData oneNodeSession okEnv).written.map fun r =>
        { r with thumbnail_url := none }) := by
  have h := thumbnail_failure_save_proceeds oneNodeSession thumbFailEnv okEnv
    "data:image/svg+xml;base64,AA" "canvas-1" rfl rfl rfl rfl
    (by simp [oneNodeSession])
  exact ⟨rfl, rfl, rfl, by simp [oneNodeSession], h.1, h.2.2.1, h.2.2.2.2.2.2⟩

theorem screenToFlow_min_corner (vp : Viewport) (p q : Point) (h : 0 < vp.zoom) :
    screenToFlowPosition vp { x := min p.x q.x, y := min p.y q.y } =
      pointMin (screenToFlowPosition vp p) (screenToFlowPosition vp q) := by
  unfold screenToFlowPosition pointMin
  simp only [Point.mk.injEq]
  constructor
  · rw [min_div_div_right (le_of_lt h), min_sub_sub_right]
  · rw [min_div_div_right (le_of_lt h), min_sub_sub_right]

theorem screenToFlow_max_corner (vp : Viewport) (p q : Point) (h : 0 < vp.zoom) :
    screenToFlowPosition vp { x := max p.x q.x, y := max p.y q.y } =
      pointMax (screenToFlowPosition vp p) (screenToFlowPosition vp q) := by
  unfold screenToFlowPosition pointMax
  simp only [Point.mk.injEq]
  constructor
  · rw [max_div_div_right (le_of_lt h), max_sub_sub_right]
  · rw [max_div_div_right (le_of_lt h), max_sub_sub_right]

theorem filtered_id_contains (nodes : List GraphNode) (p : GraphNode → Bool)
    (hids : (nodes.map fun n => n.id).Nodup) (n : GraphNode) (hn : n ∈ nodes) :
    ((nodes.filter p).map fun m => m.id).contains n.id = p n := by
  by_cases hp : p n = true
  · have hmem : n.id ∈ (nodes.filter p).map fun m => m.id :=
      List.mem_map.mpr ⟨n, List.mem_filter.mpr ⟨hn, hp⟩, rfl⟩
    simp [List.contains, List.elem_eq_mem, hmem, hp]
  · have hnm : n.id ∉ (nodes.filter p).map fun m => m.id := by
      intro hmem
      obtain ⟨m, hmf, hmid⟩ := List.mem_map.mp hmem
      obtain ⟨hmn, hpm⟩ := List.mem_filter.mp hmf
      have hmn' : m = n := List.inj_on_of_nodup_map hids hmn hn hmid
      exact hp (hmn' ▸ hpm)
    simp [List.contains, List.elem_eq_mem, hnm, Bool.eq_false_iff.mpr hp]

/-- C9: for every viewport with positive zoom and every drag rectangle, the
marquee sets a node's `selected` flag to true exactly when the node's full
bounding box — its position extended by the fixed approximate width and
height — lies entirely within the drag rectangle converted to graph space,
whichever direction the drag went (the rectangle is spanned by the
componentwise min/max of the two converted corners). -/
theorem marquee_selects_iff_box_in_rect :
    ∀ (vp : Viewport) (nodes : List GraphNode) (p q : Point),
      0 < vp.zoom → (nodes.map fun n => n.id).Nodup →
      marqueeSelect vp nodes p q =
        nodes.map fun n =>
          { n with selected :=
              decide (nodeBoxInRect n
                (pointMin (screenToFlowPosition vp p) (screenToFlowPosition vp q))
                (pointMax (screenToFlowPosition vp p) (screenToFlowPosition vp q))) } := by
  intro vp nodes p q hz hids
  unfold marqueeSelect
  rw [screenToFlow_min_corner vp p q hz, screenToFlow_max_corner vp p q hz]
  refine List.map_congr_left ?_
  intro n hn
  have hbool := filtered_id_contains nodes
    (fun node =>
      decide ((pointMin (screenToFlowPosition vp p) (screenToFlowPosition vp q)).x ≤
          node.position.x) &&
      decide ((pointMin (screenToFlowPosition vp p) (screenToFlowPosition vp q)).y ≤
          node.position.y) &&
      decide (node.position.x + approxNodeWidth ≤
          (pointMax (screenToFlowPosition vp p) (screenToFlowPosition vp q)).x) &&
      decide (node.position.y + approxNodeHeight ≤
          (pointMax (screenToFlowPosition vp p) (screenToFlowPosition vp q)).y))
    hids n hn
  have : (decide ((pointMin (screenToFlowPosition vp p) (screenToFlowPosition vp q)).x ≤
          n.position.x) &&
      decide ((pointMin (screenToFlowPosition vp p) (screenToFlowPosition vp q)).y ≤
          n.position.y) &&
      decide (n.position.x + approxNodeWidth ≤
          (pointMax (screenToFlowPosition vp p) (screenToFlowPosition vp q)).x) &&
      decide (n.position.y + approxNodeHeight ≤
          (pointMax (screenToFlowPosition vp p) (screenToFlowPosition vp q)).y)) =
      decide (nodeBoxInRect n
        (pointMin (screenToFlowPosition vp p) (screenToFlowPosition vp q))
        (pointMax (screenToFlowPosition vp p) (screenToFlowPosition vp q))) := by
    rw [Bool.eq_iff_iff]
    simp [nodeBoxInRect, Bool.and_eq_true, decide_eq_true_eq, and_assoc]
  rw [hbool]
  exact congrArg (fun b => { n with selected := b }) this

/-- Witness for C9: a node fully inside the rectangle is selected, a node
only partially overlapping it is not, with the drag given bottom-right to
top-left. -/
theorem marquee_selects_iff_box_in_rect_witness :
    (0 : ℚ) < (1 : ℚ) ∧
    ((([{ id := "a", type := some "textNode", position := { x := 10, y := 10 },
          data := { title := none, isActive := false }, selected := false },
        { id := "b", type := some "textNode", position := { x := 200, y := 10 },
          data := { title := none, isActive := false }, selected := false }] :
        List GraphNode).map fun n => n.id).Nodup) ∧
    marqueeSelect { x := 0, y := 0, zoom := 1 }
        [{ id := "a", type := some "textNode", position := { x := 10, y := 10 },
           data := { title := none, isActive := false }, selected := false },
         { id := "b", type := some "textNode", position := { x := 200, y := 10 },
           data := { title := none, isActive := false }, selected := false }]
        { x := 300, y := 200 } { x := 0, y := 0 } =
      ([{ id := "a", type := some "textNode", position := { x := 10, y := 10 },
          data := { title := none, isActive := false }, selected := false },
        { id := "b", type := some "textNode", position := { x := 200, y := 10 },
          data := { title := none, isActive := false }, selected := false }] :
        List GraphNode).map fun n =>
        { n with selected :=
            decide (nodeBoxInRect n
              (pointMin
                (screenToFlowPosition { x := 0, y := 0, zoom := 1 } { x := 300, y := 200 })
                (screenToFlowPosition { x := 0, y := 0, zoom := 1 } { x := 0, y := 0 }))
              (pointMax
                (screenToFlowPosition { x := 0, y := 0, zoom := 1 } { x := 300, y := 200 })
                (screenToFlowPosition { x := 0, y := 0, zoom := 1 } { x := 0, y := 0 }))) } :=
  ⟨zero_lt_one, by decide,
    marquee_selects_iff_box_in_rect { x := 0, y := 0, zoom := 1 } _
      { x := 300, y := 200 } { x := 0, y := 0 } zero_lt_one (by decide)⟩

/-- C10: loading by an id that matches no stored row resolves to the non-null
stub holding only `permission: 'edit'` and `isOwner: true` — every record
field absent — while loading by name with no matching row resolves to null;
the caller's truthiness test therefore initializes the session from the stub
as if an (empty) canvas existed, with label `'just now'` rather than the
`'never'` of the null case. -/
theorem loadCanvas_missing_id_resolves_to_stub :
    ∀ (db : Db) (i name : String),
      (∀ r ∈ db.canvases, r.id ≠ i) →
        loadCanvas db (some i) name =
          .ok (some { id := none, nodes := none, edges := none, viewport := none,
                      canvas_name := none, permission := "edit", isOwner := true }) ∧
        ((∀ r ∈ db.canvases, ¬ (r.user_id = "default-user" ∧ r.canvas_name = name)) →
          loadCanvas db none name = .ok none) ∧
        applyLoadResult
            (some { id := none, nodes := none, edges := none, viewport := none,
                    canvas_name := none, permission := "edit", isOwner := true }) =
          { nodes := [], edges := [], canvasName := "My Canvas", nodeIdCounter := 1,
            lastSavedTime := "just now" } ∧
        applyLoadResult none =
          { nodes := [], edges := [], canvasName := "My Canvas", nodeIdCounter := 1,
            lastSavedTime := "never" } := by
  intro db i name hid
  refine ⟨?_, ?_, rfl, rfl⟩
  · have hfind : db.canvases.find? (fun r => decide (r.id = i)) = none := by
      rw [List.find?_eq_none]
      intro r hr
      simpa using hid r hr
    unfold loadCanvas
    simp only [hfind]
  · intro hname
    have hfind : db.canvases.find?
        (fun r => decide (r.user_id = "default-user" ∧ r.canvas_name = name)) = none := by
      rw [List.find?_eq_none]
      intro r hr
      simpa using hname r hr
    unfold loadCanvas
    simp only [hfind]

/-- Witness for C10 against a store holding one unrelated canvas row. -/
theorem loadCanvas_missing_id_resolves_to_stub_witness :
    (∀ r ∈ sampleDb.canvases, r.id ≠ "canvas-1") ∧
    loadCanvas sampleDb (some "canvas-1") "My Canvas" =
      .ok (some { id := none, nodes := none, edges := none, viewport := none,
                  canvas_name := none, permission := "edit", isOwner := true }) ∧
    loadCanvas sampleDb none "My Canvas" = .ok none := by
  have h := loadCanvas_missing_id_resolves_to_stub sampleDb "canvas-1" "My Canvas"
    (by decide)
  exact ⟨by decide, h.1, h.2.1 (by decide)⟩

end Thyser
